import Mathlib

/-!
Shallow embedding of the social-dashboard web client
(`apps/web/app/dashboard/page.tsx`, the API helper module and the login
page), together with theorems settling the specification claims about it.

The embedding models:
* the API helper `apiFetch` (error normalisation of HTTP responses);
* the dashboard page component as a state machine: its React state is a
  `DashState` record, and every async handler (`loadAll`, `saveConfig`,
  `addSource`, `runNow`, `approve`, `clearLogs`, the polling interval
  callback) is a function from the current state and the outcomes of its
  network calls to the next state.
-/

namespace Social

/-! ## Data model (types in `dashboard/page.tsx`, lines 8-25) -/

structure Config where
  approval_required : Bool
  interval_days : Nat
  max_candidates : Nat
  pick_top_n : Nat
deriving DecidableEq, Repr

structure Gen where
  title_en : String
  caption_en : String
  hashtags_en : List String
deriving DecidableEq, Repr

structure Candidate where
  id : Nat
  platform : String
  original_url : String
  caption_raw : Option String
  media_type : String
  media_url : Option String
  posted_at_source : Option String
  engagement_score : Int
  status : String
  created_at : String
  generated : Option Gen
deriving DecidableEq, Repr

structure Source where
  id : Nat
  platform : String
  handle : String
  enabled : Bool
  created_at : String
deriving DecidableEq, Repr

structure Stats where
  total_candidates : Nat
  total_published : Nat
  pending_approval : Nat
  last_run_at : Option String
deriving DecidableEq, Repr

structure LogEvent where
  id : Nat
  level : String
  message : String
  job_id : Option Nat
  created_at : String
deriving DecidableEq, Repr

/-- The `/me` payload used by the dashboard (`email`, `workspace_name`). -/
structure Me where
  email : String
  workspace_name : String
deriving DecidableEq, Repr

/-! ## API gateway client (`apiFetch`, API helper module lines 48-59)

`apiFetch` inspects `res.ok` (status in 200..299).  On a non-ok response it
reads the body text and throws `new Error(txt || "HTTP " + status)` — a
single error shape for every failure status; it does not branch on 401/403.
-/

/-- `Response.ok` of the fetch API: status in the inclusive range 200-299. -/
def resOk (status : Nat) : Bool := 200 ≤ status && status < 300

/-- The error value `apiFetch` throws.  The source has exactly one error
shape for all non-ok statuses: a generic `Error` carrying a message string. -/
inductive ApiError where
  | generic (message : String)
deriving DecidableEq, Repr

/-- The message of the error thrown at a non-ok response: the body text, or
`"HTTP <status>"` when the body text is empty (JS `txt || ...`). -/
def apiFetchError (status : Nat) (bodyText : String) : ApiError :=
  .generic (if bodyText = "" then "HTTP " ++ toString status else bodyText)

/-- Result of one `apiFetch` call, as a function of the HTTP response:
the status, the body text, and (for ok responses) the decoded payload. -/
def apiFetch {α : Type} (status : Nat) (bodyText : String) (payload : α) :
    Except ApiError α :=
  if resOk status then .ok payload else .error (apiFetchError status bodyText)

/-- The message extracted from a caught error by the dashboard handlers,
`String(e?.message || e)`: the message carried by the error (never empty
for errors produced by `apiFetchError`). -/
def errMessage : ApiError → String
  | .generic m => m

/-- Modelled from the spec (§4.1, §7): the error taxonomy the spec claims
for the API client — `AuthError` for unauthorized/forbidden statuses,
`RequestError{status, body}` for any other non-success status.  This
definition follows the spec's words and exists only to be compared with
`apiFetch`, the definition taken from the source. -/
inductive SpecApiError where
  | authError
  | requestError (status : Nat) (body : String)
deriving DecidableEq, Repr

/-- Modelled from the spec (§4.1): the call contract as the spec states
it, to be compared with the source's `apiFetch`. -/
def apiFetchSpec {α : Type} (status : Nat) (bodyText : String) (payload : α) :
    Except SpecApiError α :=
  if resOk status then .ok payload
  else if status = 401 || status = 403 then .error .authError
  else .error (.requestError status bodyText)

/-! ## Workflow model: pending candidates (`dashboard/page.tsx` line 48) -/

/-- `posts.filter(p => p.status === "awaiting_approval")`. -/
def pending (posts : List Candidate) : List Candidate :=
  posts.filter (fun p => p.status = "awaiting_approval")

/-- `pending.length`, the displayed pending count (line 195). -/
def pendingCount (posts : List Candidate) : Nat := (pending posts).length

/-! ## Queue tab rendering (`dashboard/page.tsx` lines 271-299)

Per candidate row, the only interactive control is the approve button,
rendered iff `p.status === "awaiting_approval"` (lines 280-282). -/

inductive QueueControl where
  | approveButton (id : Nat)
deriving DecidableEq, Repr

/-- Controls rendered for a single candidate row in the queue tab. -/
def queueRowControls (p : Candidate) : List QueueControl :=
  if p.status = "awaiting_approval" then [.approveButton p.id] else []

/-- All controls rendered in the queue tab for a fetched candidate list. -/
def queueControls (posts : List Candidate) : List QueueControl :=
  posts.flatMap queueRowControls

/-! ## Dashboard page state (`dashboard/page.tsx` lines 33-46, 98-99)

React state of the page, plus the session store (`token`, API helper module
lines 33-46) and the router location (`route`), which the page writes via
`r.replace("/login")`. -/

inductive Tab where
  | overview | config | sources | queue | logs
deriving DecidableEq, Repr

structure DashState where
  tab : Tab
  me : Option Me
  cfg : Option Config
  sources : List Source
  posts : List Candidate
  stats : Option Stats
  logs : List LogEvent
  runAuto : Bool
  runLoading : Bool
  err : Option String
  newPlatform : String
  newHandle : String
  token : Option String
  route : String
deriving DecidableEq, Repr

/-- The initial React state on mount (the `useState` defaults), for a given
stored token. -/
def initState (token : Option String) : DashState :=
  { tab := .overview, me := none, cfg := none, sources := [], posts := [],
    stats := none, logs := [], runAuto := false, runLoading := false,
    err := none, newPlatform := "instagram", newHandle := "",
    token := token, route := "/dashboard" }

/-- Outcome of one network call as seen by an async handler: either the
decoded payload or the thrown error. -/
inductive FetchOutcome (α : Type) where
  | ok (v : α)
  | err (e : ApiError)
deriving DecidableEq, Repr

def FetchOutcome.error? {α : Type} : FetchOutcome α → Option ApiError
  | .ok _ => none
  | .err e => some e

/-! ## `loadAll` (`dashboard/page.tsx` lines 50-69)

`loadAll` clears `err`, awaits `/me`, stores it, then awaits a
`Promise.all` of five fetches; on success it stores all five snapshots and
sets `runAuto := !config.approval_required`.  Any thrown error lands in the
single catch block, which sets `err`, clears the token and replaces the
route with `/login` — unconditionally, whatever the error was. -/

structure LoadResults where
  me : FetchOutcome Me
  cfg : FetchOutcome Config
  sources : FetchOutcome (List Source)
  stats : FetchOutcome Stats
  logs : FetchOutcome (List LogEvent)
  posts : FetchOutcome (List Candidate)
deriving DecidableEq, Repr

/-- First present error in a list of optional errors. -/
def firstSome : List (Option ApiError) → Option ApiError
  | [] => none
  | some e :: _ => some e
  | none :: rest => firstSome rest

/-- The error with which the `Promise.all` batch rejects, if any.  (When
several of the five fetches fail, `Promise.all` rejects with the
first-in-time rejection; the model fixes the argument order as the choice —
no claim depends on which failing fetch is picked.) -/
def batchError (r : LoadResults) : Option ApiError :=
  firstSome [r.cfg.error?, r.sources.error?, r.stats.error?,
    r.logs.error?, r.posts.error?]

/-- Whether some fetch of the initial load fails. -/
def LoadResults.hasError (r : LoadResults) : Bool :=
  r.me.error?.isSome || (batchError r).isSome

/-- The catch block of `loadAll` (lines 64-68). -/
def loadAllFail (s : DashState) (e : ApiError) : DashState :=
  { s with err := some (errMessage e), token := none, route := "/login" }

def loadAll (s : DashState) (r : LoadResults) : DashState :=
  let s1 := { s with err := none }
  match r.me with
  | .err e => loadAllFail s1 e
  | .ok m =>
    let s2 := { s1 with me := some m }
    match r.cfg, r.sources, r.stats, r.logs, r.posts with
    | .ok c, .ok src, .ok st, .ok l, .ok p =>
        { s2 with cfg := some c, sources := src, stats := some st,
                  logs := l, posts := p, runAuto := !c.approval_required }
    | _, _, _, _, _ =>
        loadAllFail s2 ((batchError r).getD (.generic ""))

/-! ## `saveConfig` (`dashboard/page.tsx` lines 88-96) -/

def saveConfig (s : DashState) (r : FetchOutcome Config) : DashState :=
  match s.cfg with
  | none => s
  | some _ =>
    let s1 := { s with err := none }
    match r with
    | .ok saved =>
        { s1 with cfg := some saved, runAuto := !saved.approval_required }
    | .err e => { s1 with err := some (errMessage e) }

/-! ## `addSource` (`dashboard/page.tsx` lines 100-108)

POST the new source; on success clear the handle input and re-fetch the
source list; either failure lands in the catch, which sets `err`. -/

def addSource (s : DashState) (post : FetchOutcome Source)
    (refetch : FetchOutcome (List Source)) : DashState :=
  let s1 := { s with err := none }
  match post with
  | .err e => { s1 with err := some (errMessage e) }
  | .ok _ =>
    let s2 := { s1 with newHandle := "" }
    match refetch with
    | .err e => { s2 with err := some (errMessage e) }
    | .ok src => { s2 with sources := src }

/-! ## `runNow` (`dashboard/page.tsx` lines 110-118) -/

/-- The one run request a `runNow` invocation issues: `POST /api/run` with
body `{auto_publish: runAuto}`, `runAuto` read from the state at call time. -/
structure RunRequest where
  path : String
  method : String
  auto_publish : Bool
deriving DecidableEq, Repr

def runRequest (s : DashState) : RunRequest :=
  { path := "/api/run", method := "POST", auto_publish := s.runAuto }

/-- The synchronous prefix of `runNow` up to its await: clear `err`, set
`runLoading`, and issue the run request.  It is unconditional — nothing in
the function inspects `runLoading` or anything else before issuing. -/
def runNowStart (s : DashState) : DashState × RunRequest :=
  ({ s with err := none, runLoading := true }, runRequest s)

/-- The rest of `runNow` once its awaited call resolves: on success switch
to the logs tab; on failure set `err`; finally reset `runLoading`. -/
def runNow (s : DashState) (r : FetchOutcome Nat) : DashState :=
  let s1 := (runNowStart s).1
  let s2 :=
    match r with
    | .ok _ => { s1 with tab := Tab.logs }
    | .err e => { s1 with err := some (errMessage e) }
  { s2 with runLoading := false }

/-! ## `approve` (`dashboard/page.tsx` lines 120-127)

The re-fetch of `/api/posts` sits inside the `try`, after the approve
call: it only happens when the approve call succeeded. -/

def approve (s : DashState) (_id : Nat) (call : FetchOutcome Unit)
    (refetch : FetchOutcome (List Candidate)) : DashState :=
  let s1 := { s with err := none }
  match call with
  | .err e => { s1 with err := some (errMessage e) }
  | .ok _ =>
    match refetch with
    | .err e => { s1 with err := some (errMessage e) }
    | .ok p => { s1 with posts := p }

/-- The request paths an `approve id` invocation issues, as a function of
the approve call's outcome: the approve POST always; the `/api/posts`
re-fetch only when the approve POST did not throw. -/
def approveRequests (id : Nat) (call : FetchOutcome Unit) : List String :=
  match call with
  | .err _ => ["/api/posts/" ++ toString id ++ "/approve"]
  | .ok _ => ["/api/posts/" ++ toString id ++ "/approve", "/api/posts"]

/-! ## `clearLogs` (`dashboard/page.tsx` lines 129-133)

Unlike every other handler, `clearLogs` has no try/catch: a failing call
is an unhandled rejection — no state update runs, and no error message is
ever stored. -/

def clearLogs (s : DashState) (call : FetchOutcome Unit)
    (refetch : FetchOutcome (List LogEvent)) : DashState :=
  match call with
  | .err _ => s
  | .ok _ =>
    match refetch with
    | .err _ => s
    | .ok l => { s with logs := l }

/-! ## Polling (`dashboard/page.tsx` lines 74-86)

A `setInterval` of 4000 ms; each tick awaits a `Promise.all` of the
`/api/logs`, `/api/posts`, `/api/stats` fetches and replaces the three
snapshots; the catch block is empty (`catch {}`), so a failed tick changes
nothing and the interval keeps running. -/

/-- The polling interval in milliseconds (`setInterval(..., 4000)`). -/
def pollIntervalMs : Nat := 4000

/-- Outcome of one poll tick's `Promise.all`: all three snapshots, or the
first rejection (which discards the others). -/
inductive PollOutcome where
  | ok (logs : List LogEvent) (posts : List Candidate) (stats : Stats)
  | err (e : ApiError)
deriving DecidableEq, Repr

def pollCycle (s : DashState) : PollOutcome → DashState
  | .ok l p st => { s with logs := l, posts := p, stats := st }
  | .err _ => s

/-- Successive poll ticks: the interval fires once per outcome in the
list; the empty catch never stops it. -/
def pollTrace (s : DashState) (rs : List PollOutcome) : DashState :=
  rs.foldl pollCycle s

/-! ## The page as one event-step system -/

/-- One field edit of the config form (`dashboard/page.tsx` lines 207,
215, 219, 223): each control's `onChange` calls
`setCfg({...cfg, <field>: v})`, rewriting one field of the cached Config
in place, before and independently of any save. -/
inductive CfgEdit where
  | approvalRequired (b : Bool)
  | intervalDays (n : Nat)
  | maxCandidates (n : Nat)
  | pickTopN (n : Nat)
deriving DecidableEq, Repr

/-- `{...cfg, <field>: v}` for one config-form edit. -/
def applyCfgEdit (c : Config) : CfgEdit → Config
  | .approvalRequired b => { c with approval_required := b }
  | .intervalDays n => { c with interval_days := n }
  | .maxCandidates n => { c with max_candidates := n }
  | .pickTopN n => { c with pick_top_n := n }

/-- One event the page can process: a handler invocation together with the
outcomes of its network calls, a poll tick, the run-mode select toggle
(line 180), a tab switch (line 161), a config-form field edit (lines
207-223), an add-source form input edit (lines 237, 244), or the logout
button (lines 135-138). -/
inductive Event where
  | load (r : LoadResults)
  | save (r : FetchOutcome Config)
  | add (post : FetchOutcome Source) (refetch : FetchOutcome (List Source))
  | run (r : FetchOutcome Nat)
  | approveEv (id : Nat) (call : FetchOutcome Unit)
      (refetch : FetchOutcome (List Candidate))
  | clear (call : FetchOutcome Unit) (refetch : FetchOutcome (List LogEvent))
  | poll (r : PollOutcome)
  | toggle (b : Bool)
  | switchTab (t : Tab)
  | editCfg (ed : CfgEdit)
  | editNewPlatform (p : String)
  | editNewHandle (h : String)
  | logoutEv
deriving DecidableEq, Repr

def step (s : DashState) : Event → DashState
  | .load r => loadAll s r
  | .save r => saveConfig s r
  | .add post refetch => addSource s post refetch
  | .run r => runNow s r
  | .approveEv id call refetch => approve s id call refetch
  | .clear call refetch => clearLogs s call refetch
  | .poll r => pollCycle s r
  | .toggle b => { s with runAuto := b }
  | .switchTab t => { s with tab := t }
  -- the config form renders (and its onChange can fire) only when a
  -- Config is loaded: `tab === "config" && cfg ? ... : null` (line 202)
  | .editCfg ed =>
      match s.cfg with
      | none => s
      | some c => { s with cfg := some (applyCfgEdit c ed) }
  | .editNewPlatform p => { s with newPlatform := p }
  | .editNewHandle h => { s with newHandle := h }
  | .logoutEv => { s with token := none, route := "/login" }

/-- Events that (re)load or save the Config, resetting the run-mode
preselection when they succeed. -/
def Event.isReset : Event → Bool
  | .load _ => true
  | .save _ => true
  | _ => false

def Event.isLoad : Event → Bool
  | .load _ => true
  | _ => false

def Event.isSave : Event → Bool
  | .save _ => true
  | _ => false

def Event.isAdd : Event → Bool
  | .add _ _ => true
  | _ => false

def Event.isEditCfg : Event → Bool
  | .editCfg _ => true
  | _ => false

/-- The value of an in-session run-mode toggle event. -/
def Event.toggleVal : Event → Option Bool
  | .toggle b => some b
  | _ => none

/-! ## Concrete fixtures used in scenario conjuncts and counterexamples -/

def sampleCandidate (id : Nat) (status : String) : Candidate :=
  { id := id, platform := "instagram", original_url := "https://s/p",
    caption_raw := none, media_type := "image", media_url := none,
    posted_at_source := none, engagement_score := 7, status := status,
    created_at := "2025-01-01T00:00:00Z", generated := none }

def sampleMe : Me := { email := "op@example.com", workspace_name := "ws" }

def sampleConfig : Config :=
  { approval_required := true, interval_days := 1, max_candidates := 20,
    pick_top_n := 5 }

def sampleStats : Stats :=
  { total_candidates := 0, total_published := 0, pending_approval := 0,
    last_run_at := none }

def sampleLog : LogEvent :=
  { id := 1, level := "info", message := "boot", job_id := none,
    created_at := "2025-01-01T00:00:00Z" }

/-- Ten fetched candidates, three of them awaiting approval (the scenario
of §8 of the spec). -/
def tenCandidates : List Candidate :=
  [sampleCandidate 1 "new", sampleCandidate 2 "awaiting_approval",
   sampleCandidate 3 "selected", sampleCandidate 4 "generated",
   sampleCandidate 5 "awaiting_approval", sampleCandidate 6 "published",
   sampleCandidate 7 "approved", sampleCandidate 8 "awaiting_approval",
   sampleCandidate 9 "new", sampleCandidate 10 "published"]

/-- An initial-load outcome where only the `/api/config` fetch fails, with
the error `apiFetch` produces at a 500 response — a failure that is not an
authentication failure. -/
def loadNonAuthFail : LoadResults :=
  { me := .ok sampleMe, cfg := .err (apiFetchError 500 "boom"),
    sources := .ok [], stats := .ok sampleStats, logs := .ok [],
    posts := .ok [] }

/-- A fully successful initial-load outcome. -/
def loadAllOk : LoadResults :=
  { me := .ok sampleMe, cfg := .ok sampleConfig, sources := .ok [],
    stats := .ok sampleStats, logs := .ok [sampleLog],
    posts := .ok tenCandidates }

/-- A dashboard state with one log line and no displayed error. -/
def stateWithLog : DashState :=
  { initState (some "tok") with logs := [sampleLog] }

/-- A dashboard state after a successful load of `sampleConfig`
(`approval_required = true`). -/
def stateWithCfg : DashState :=
  { initState (some "tok") with cfg := some sampleConfig }

/-! # Theorems settling the claims -/

/-- C1 counterexample: the claim says an unauthorized status fails with an
`AuthError` and any other non-success status with a `RequestError`, the two
kinds distinguishable by the caller.  In the source, `apiFetch` throws the
same generic error for a 401 as for a 500 with the same body — the two
failures are equal values, hence indistinguishable — while the spec's own
taxonomy (`apiFetchSpec`) would separate them. -/
theorem C1_counterexample :
    apiFetch (α := Unit) 401 "boom" () = apiFetch (α := Unit) 500 "boom" () ∧
    apiFetch (α := Unit) 401 "boom" () = .error (.generic "boom") ∧
    apiFetchSpec (α := Unit) 401 "boom" () ≠ apiFetchSpec (α := Unit) 500 "boom" () := by
  refine ⟨rfl, rfl, fun h => ?_⟩
  exact SpecApiError.noConfusion (Except.error.inj h)

/-- C1 (amended): every call with a non-success status fails with the single
generic error `apiFetch` builds from the response — message the body text,
or `"HTTP <status>"` when the body is empty; there is no separate auth
failure kind, and two failing statuses with the same non-empty body yield
identical failures. -/
theorem C1_apiFetch_error_shape {α : Type} (status : Nat) (bodyText : String)
    (payload : α) (h : resOk status = false) :
    apiFetch status bodyText payload = .error (apiFetchError status bodyText) ∧
    apiFetchError status bodyText =
      .generic (if bodyText = "" then "HTTP " ++ toString status else bodyText) ∧
    ∀ status2 : Nat, resOk status2 = false → bodyText ≠ "" →
      apiFetch status bodyText payload = apiFetch status2 bodyText payload := by
  refine ⟨by simp [apiFetch, h], rfl, ?_⟩
  intro s2 h2 hb
  simp [apiFetch, h, h2, apiFetchError, hb]

/-- C1 witness: the amended statement at status 404, body "not found". -/
theorem C1_apiFetch_error_shape_witness :
    apiFetch (α := Unit) 404 "not found" ()
      = .error (apiFetchError 404 "not found") :=
  (C1_apiFetch_error_shape 404 "not found" () (by decide)).1

/-- C5 counterexample: the claim says a failed clear-logs call leaves the
local log list unchanged and still reports the error to the user.  In the
source `clearLogs` has no try/catch, so a failing call changes nothing —
including the error display, which stays empty: no error is reported. -/
theorem C5_counterexample :
    clearLogs stateWithLog (.err (.generic "boom")) (.ok []) = stateWithLog ∧
    stateWithLog.err = none ∧ stateWithLog.logs = [sampleLog] := by
  decide

/-- C5 (amended): a failing save-config, add-source, run or approve call
sets the inline error message and leaves every other state field unchanged
(no optimistic update); a failing clear-logs call leaves the entire state —
in particular the local log list — unchanged, but reports no error, since
the rejection is unhandled. -/
theorem C5_mutation_failures_leave_state :
    (∀ (s : DashState) (c0 : Config) (e : ApiError),
      saveConfig { s with cfg := some c0 } (.err e)
        = { s with cfg := some c0, err := some (errMessage e) }) ∧
    (∀ (s : DashState) (e : ApiError) (refetch : FetchOutcome (List Source)),
      addSource s (.err e) refetch = { s with err := some (errMessage e) }) ∧
    (∀ (s : DashState) (e : ApiError),
      runNow s (.err e)
        = { s with err := some (errMessage e), runLoading := false }) ∧
    (∀ (s : DashState) (id : Nat) (e : ApiError)
        (refetch : FetchOutcome (List Candidate)),
      approve s id (.err e) refetch = { s with err := some (errMessage e) }) ∧
    (∀ (s : DashState) (e : ApiError) (refetch : FetchOutcome (List LogEvent)),
      clearLogs s (.err e) refetch = s) :=
  ⟨fun _ _ _ => rfl, fun _ _ _ => rfl, fun _ _ => rfl,
   fun _ _ _ _ => rfl, fun _ _ _ => rfl⟩

/-- C6: the pending set is exactly the fetched candidates whose status is
`awaiting_approval`, the displayed count is its length, and on the §8
scenario list (10 candidates, 3 awaiting) the count is exactly 3. -/
theorem C6_pending_exactly_awaiting :
    (∀ (posts : List Candidate) (c : Candidate),
      c ∈ pending posts ↔ c ∈ posts ∧ c.status = "awaiting_approval") ∧
    (∀ posts : List Candidate, pendingCount posts = (pending posts).length) ∧
    pendingCount tenCandidates = 3 := by
  refine ⟨?_, fun _ => rfl, by decide⟩
  intro posts c
  simp [pending, List.mem_filter]

/-- C7: each `runNow` invocation issues exactly one `POST /api/run` request
whose body carries the effective run mode read from state at call time, the
persisted Config plays no part in the request, and a second un-awaited
invocation (while the first is still loading) issues a second request —
two invocations, two requests, no deduplication or debouncing. -/
theorem C7_runNow_requests :
    (∀ s : DashState, (runRequest s).path = "/api/run" ∧
      (runRequest s).method = "POST" ∧
      (runRequest s).auto_publish = s.runAuto) ∧
    (∀ (s : DashState) (c : Option Config),
      runRequest { s with cfg := c } = runRequest s) ∧
    (∀ (s : DashState) (m1 m2 : Bool),
      (runNowStart { s with runAuto := m1 }).2 = ⟨"/api/run", "POST", m1⟩ ∧
      ((runNowStart { s with runAuto := m1 }).1).runLoading = true ∧
      (runNowStart
        { (runNowStart { s with runAuto := m1 }).1 with runAuto := m2 }).2
        = ⟨"/api/run", "POST", m2⟩ ∧
      [(runNowStart { s with runAuto := m1 }).2,
       (runNowStart
         { (runNowStart { s with runAuto := m1 }).1 with runAuto := m2 }).2].length
        = 2) :=
  ⟨fun _ => ⟨rfl, rfl, rfl⟩, fun _ _ => rfl, fun _ _ _ => ⟨rfl, rfl, rfl, rfl⟩⟩

/-- C8: the poll interval is fixed at 4000 ms; a successful tick replaces
exactly the logs, candidates and stats snapshots wholesale; a failing tick
leaves the state entirely unchanged (no error surfaced, no snapshot
touched); and a failing tick has no effect on the remainder of the poll
trace — the timer keeps firing. -/
theorem C8_polling_behaviour :
    pollIntervalMs = 4000 ∧
    (∀ (s : DashState) (l : List LogEvent) (p : List Candidate) (st : Stats),
      pollCycle s (.ok l p st) = { s with logs := l, posts := p, stats := st }) ∧
    (∀ (s : DashState) (e : ApiError), pollCycle s (.err e) = s) ∧
    (∀ (s : DashState) (e : ApiError) (rs : List PollOutcome),
      pollTrace s (PollOutcome.err e :: rs) = pollTrace s rs) :=
  ⟨rfl, fun _ _ _ _ => rfl, fun _ _ => rfl, fun _ _ _ => rfl⟩

/-- C10: in the rendered queue tab, an approve control for id `i` exists
iff some fetched candidate has id `i` and status exactly
`awaiting_approval`; for every other status no approve control is
rendered. -/
theorem C10_approve_control_only_when_awaiting :
    ∀ (posts : List Candidate) (id : Nat),
      QueueControl.approveButton id ∈ queueControls posts ↔
        ∃ p, p ∈ posts ∧ p.id = id ∧ p.status = "awaiting_approval" := by
  intro posts id
  simp only [queueControls, List.mem_flatMap]
  constructor
  · rintro ⟨p, hp, hmem⟩
    by_cases hst : p.status = "awaiting_approval"
    · rw [queueRowControls, if_pos hst] at hmem
      simp at hmem
      exact ⟨p, hp, hmem.symm, hst⟩
    · rw [queueRowControls, if_neg hst] at hmem
      simp at hmem
  · rintro ⟨p, hp, hid, hst⟩
    exact ⟨p, hp, by simp [queueRowControls, hst, hid]⟩

/-- C2 counterexample: the claim says the credential is cleared only when
the initial-load failure is an auth failure.  A 500 on the config fetch —
a `RequestError`, not an `AuthError`, by the spec's own taxonomy — still
makes `loadAll`'s catch clear the stored token and redirect to login. -/
theorem C2_counterexample :
    apiFetchSpec (α := Unit) 500 "boom" () = .error (.requestError 500 "boom") ∧
    (loadAll (initState (some "tok")) loadNonAuthFail).token = none ∧
    (loadAll (initState (some "tok")) loadNonAuthFail).route = "/login" :=
  ⟨rfl, rfl, rfl⟩

/-- C2 (amended): if any fetch of the initial load fails — whether or not
the failure is an authentication failure — the whole load fails: the error
is reported, the stored credential is cleared and the route is replaced
with `/login`; only a fully successful load leaves the credential and the
route in place. -/
theorem C2_initial_load_failure_handling :
    (∀ (s : DashState) (r : LoadResults), r.hasError = true →
      (loadAll s r).err.isSome = true ∧ (loadAll s r).token = none ∧
      (loadAll s r).route = "/login") ∧
    (∀ (s : DashState) (r : LoadResults), r.hasError = false →
      (loadAll s r).token = s.token ∧ (loadAll s r).route = s.route) ∧
    (loadAll (initState (some "tok")) loadAllOk).token = some "tok" := by
  refine ⟨?_, ?_, rfl⟩ <;>
  · intro s r h
    obtain ⟨me, cfg, src, st, l, p⟩ := r
    cases me <;> cases cfg <;> cases src <;> cases st <;> cases l <;> cases p <;>
      simp_all [loadAll, LoadResults.hasError, batchError, firstSome,
        FetchOutcome.error?, loadAllFail]

/-- C3 counterexample: the claim says the candidates resource is re-fetched
after `approve` resolves regardless of the call's outcome.  When the
approve call fails, the catch runs instead: no `/api/posts` request is
issued and the local candidate list is left as it was, even though the
server holds a fresher snapshot. -/
theorem C3_counterexample :
    "/api/posts" ∉ approveRequests 42 (.err (.generic "boom")) ∧
    (approve (initState (some "tok")) 42 (.err (.generic "boom"))
        (.ok [sampleCandidate 42 "published"])).posts = [] := by
  exact ⟨by decide, rfl⟩

/-- C3 (amended): `approve` re-fetches the candidates resource only when
the approve call itself succeeds, replacing the local list with the fresh
snapshot; when the approve call fails, the error is displayed, no
`/api/posts` re-fetch is issued and the local list is unchanged until the
next poll. -/
theorem C3_approve_refetch_only_on_success :
    (∀ (s : DashState) (id : Nat) (p : List Candidate),
      approve s id (.ok ()) (.ok p) = { s with err := none, posts := p }) ∧
    (∀ id : Nat, "/api/posts" ∈ approveRequests id (.ok ())) ∧
    (∀ (s : DashState) (id : Nat) (e : ApiError)
        (refetch : FetchOutcome (List Candidate)),
      approve s id (.err e) refetch = { s with err := some (errMessage e) }) ∧
    (∀ (id : Nat) (e : ApiError),
      "/api/posts" ∉ approveRequests id (.err e)) := by
  refine ⟨fun _ _ _ => rfl, fun id => ?_, fun _ _ _ _ => rfl, fun id e => ?_⟩
  · simp [approveRequests]
  · intro hmem
    simp [approveRequests] at hmem
    have hlen := congrArg String.length hmem
    have l0 : ("/api/posts" : String).length = 10 := rfl
    have l1 : ("/api/posts/" : String).length = 11 := rfl
    have l2 : ("/approve" : String).length = 8 := rfl
    rw [String.length_append, String.length_append, l0, l1, l2] at hlen
    omega

/-- Any event that is neither a Config load/save nor a run-mode toggle
leaves the effective run mode unchanged. -/
theorem runAuto_preserved (s : DashState) (e : Event)
    (hr : e.isReset = false) (ht : e.toggleVal = none) :
    (step s e).runAuto = s.runAuto := by
  cases e with
  | load r => simp [Event.isReset] at hr
  | save r => simp [Event.isReset] at hr
  | add post refetch => cases post <;> cases refetch <;> simp [step, addSource]
  | run r => cases r <;> simp [step, runNow, runNowStart]
  | approveEv id call refetch =>
      cases call <;> cases refetch <;> simp [step, approve]
  | clear call refetch => cases call <;> cases refetch <;> simp [step, clearLogs]
  | poll r => cases r <;> simp [step, pollCycle]
  | toggle b => simp [Event.toggleVal] at ht
  | switchTab t => rfl
  | editCfg ed => cases hc : s.cfg <;> simp [step, hc]
  | editNewPlatform p => rfl
  | editNewHandle h => rfl
  | logoutEv => rfl

/-- Along a trace free of Config loads and saves, the effective run mode
ends as the last in-session toggle's value, defaulting to the mode the
trace started from. -/
theorem runAuto_trace (es : List Event) :
    ∀ s : DashState, es.all (fun e => !e.isReset) = true →
      (es.foldl step s).runAuto
        = (es.filterMap Event.toggleVal).getLastD s.runAuto := by
  induction es with
  | nil => intro s _; rfl
  | cons e es ih =>
    intro s h
    rw [List.all_cons, Bool.and_eq_true] at h
    obtain ⟨he', hes⟩ := h
    rw [Bool.not_eq_true'] at he'
    cases htv : e.toggleVal with
    | none =>
      rw [List.foldl_cons]
      simp only [List.filterMap_cons, htv]
      rw [ih (step s e) hes, runAuto_preserved s e he' htv]
    | some b =>
      have hstep : (step s e).runAuto = b := by
        cases e <;> simp_all [Event.toggleVal, step]
      rw [List.foldl_cons]
      simp only [List.filterMap_cons, htv]
      rw [ih (step s e) hes, hstep, List.getLastD_cons]

/-- C4: a successful Config load and a successful Config save both reset
the effective run mode to the negation of the (re)loaded `approval_required`
default; an in-session toggle sets it directly; and along any stretch of
events with no Config load or save, the effective mode is the last toggled
value (the persisted default plays no further part), defaulting to the mode
set by the last reset. -/
theorem C4_effective_run_mode :
    (∀ (s : DashState) (m : Me) (c : Config) (src : List Source) (st : Stats)
        (l : List LogEvent) (p : List Candidate),
      (step s (.load ⟨.ok m, .ok c, .ok src, .ok st, .ok l, .ok p⟩)).runAuto
        = !c.approval_required) ∧
    (∀ (s : DashState) (c0 c : Config),
      (step { s with cfg := some c0 } (.save (.ok c))).runAuto
        = !c.approval_required) ∧
    (∀ (s : DashState) (b : Bool), (step s (.toggle b)).runAuto = b) ∧
    (∀ (s : DashState) (es : List Event),
      es.all (fun e => !e.isReset) = true →
      (es.foldl step s).runAuto
        = (es.filterMap Event.toggleVal).getLastD s.runAuto) :=
  ⟨fun _ _ _ _ _ _ _ => rfl, fun _ _ _ => rfl, fun _ _ => rfl,
   fun s es h => runAuto_trace es s h⟩

/-- C9 counterexample: the claim says the cached Config can only change
through initial load, an explicit save or an explicit add.  But the config
form's `onChange` handlers call `setCfg({...cfg, ...})` on every edit:
toggling `approval_required` in the form — an event that is neither a
load, a save nor an add — changes the cached Config with no server call. -/
theorem C9_counterexample :
    (Event.editCfg (.approvalRequired false)).isLoad = false ∧
    (Event.editCfg (.approvalRequired false)).isSave = false ∧
    (Event.editCfg (.approvalRequired false)).isAdd = false ∧
    (step stateWithCfg (.editCfg (.approvalRequired false))).cfg
      ≠ stateWithCfg.cfg := by
  decide

/-- C9 (amended): a poll tick — successful or not — never changes the
cached Config, the sources list, the identity, the selected tab or the
effective run-mode toggle; over all events, the Config can change only
through a load, a save, or an in-session config-form edit (which rewrites
one field of the cached copy before any save), and the sources list only
through a load or an add. -/
theorem C9_poll_frame :
    (∀ (s : DashState) (o : PollOutcome),
      (pollCycle s o).cfg = s.cfg ∧ (pollCycle s o).sources = s.sources ∧
      (pollCycle s o).me = s.me ∧ (pollCycle s o).tab = s.tab ∧
      (pollCycle s o).runAuto = s.runAuto) ∧
    (∀ (s : DashState) (e : Event), e.isLoad = false → e.isSave = false →
      e.isEditCfg = false → (step s e).cfg = s.cfg) ∧
    (∀ (s : DashState) (e : Event), e.isLoad = false → e.isAdd = false →
      (step s e).sources = s.sources) := by
  refine ⟨fun s o => ?_, fun s e hl hs hec => ?_, fun s e hl ha => ?_⟩
  · cases o <;> exact ⟨rfl, rfl, rfl, rfl, rfl⟩
  · cases e with
    | load r => simp [Event.isLoad] at hl
    | save r => simp [Event.isSave] at hs
    | add post refetch => cases post <;> cases refetch <;> simp [step, addSource]
    | run r => cases r <;> simp [step, runNow, runNowStart]
    | approveEv id call refetch =>
        cases call <;> cases refetch <;> simp [step, approve]
    | clear call refetch => cases call <;> cases refetch <;> simp [step, clearLogs]
    | poll r => cases r <;> simp [step, pollCycle]
    | toggle b => rfl
    | switchTab t => rfl
    | editCfg ed => simp [Event.isEditCfg] at hec
    | editNewPlatform p => rfl
    | editNewHandle h => rfl
    | logoutEv => rfl
  · cases e with
    | load r => simp [Event.isLoad] at hl
    | add post refetch => simp [Event.isAdd] at ha
    | save r => cases hc : s.cfg <;> cases r <;> simp [step, saveConfig, hc]
    | run r => cases r <;> simp [step, runNow, runNowStart]
    | approveEv id call refetch =>
        cases call <;> cases refetch <;> simp [step, approve]
    | clear call refetch => cases call <;> cases refetch <;> simp [step, clearLogs]
    | poll r => cases r <;> simp [step, pollCycle]
    | toggle b => rfl
    | switchTab t => rfl
    | editCfg ed => cases hc : s.cfg <;> simp [step, hc]
    | editNewPlatform p => rfl
    | editNewHandle h => rfl
    | logoutEv => rfl

end Social
